import Mathlib

/-!
Shallow embedding of the agent-process supervisor in
`src/src-tauri/src/lib.rs` and the project store in
`src/src-tauri/src/db.rs` of the threefirenovel repository.

The supervisor state is `Mutex<Option<Child>>`; we model the slot as
`Option Child` and each Tauri command as a pure function from the slot
(plus oracles standing for the OS: the outcome a `spawn` call would
produce, the outcome of the TCP connect, the platform) to the new slot,
the returned `Result<String, String>`, and a trace of the observable
side effects the function performs, in order.  Lock acquisition and
release appear in the trace exactly where the Rust `MutexGuard` is
created and dropped (a guard lives to the end of its scope), so lock
discipline is checkable on traces.
-/

namespace ThreeFire

/-- A `std::process::Child` handle: its OS pid, and whether a
non-blocking `try_wait` would report that it has already exited. -/
structure Child where
  pid : Nat
  hasExited : Bool
deriving DecidableEq, Repr

/-- Observable side effects of the supervisor, in program order.
`lockAcquire` and `lockRelease` mark the lifetime of the Rust
`MutexGuard` on `agent_process`; `spawnEv` is a `Command::spawn` call;
`taskkillEv` is the Windows `taskkill /F /T /PID` invocation;
`sigtermGroupEv` is the POSIX `libc::kill(-(pid), SIGTERM)` call on the
process group; `directKillEv` and `waitEv` are `child.kill()` and
`child.wait()`; `probeEv` is the TCP health probe. -/
inductive Event where
  | lockAcquire : Event
  | lockRelease : Event
  | spawnEv : Event
  | taskkillEv : Nat → Event
  | sigtermGroupEv : Nat → Event
  | directKillEv : Nat → Event
  | waitEv : Nat → Event
  | probeEv : Event
deriving DecidableEq, Repr

/-- Result of one supervisor command: the slot after the call, the
`Result<String, String>` returned to the UI, and the effect trace. -/
structure CmdOut where
  state : Option Child
  result : Except String String
  trace : List Event
deriving Repr

/-- Embedding of `kill_process_tree` (lib.rs 261–280).  It consumes the
`Child` by value.  On Windows it runs `taskkill /F /T /PID pid` and
discards the status (`treeKillOk`, unused, stands for that discarded
result); on POSIX it signals the process group with SIGTERM.  It then
always calls `child.kill()` and `child.wait()`, discarding their
results, so it returns no error for any child, exited or not. -/
def kill_process_tree (isWindows : Bool) (treeKillOk : Bool) (c : Child) : List Event :=
  (if isWindows then [Event.taskkillEv c.pid] else [Event.sigtermGroupEv c.pid])
    ++ [Event.directKillEv c.pid, Event.waitEv c.pid]

/-- Embedding of `start_agent` (lib.rs 73–83).  `spawnRes` is the result
the OS would give the `spawn_agent` call (`None` = spawn failure).  The
guard is taken at entry and dropped at every return point, so the whole
body, including the spawn, runs under the lock. -/
def start_agent (spawnRes : Option Child) (st : Option Child) : CmdOut :=
  match st with
  | some c =>
      ⟨some c, Except.ok "Agent already running", [Event.lockAcquire, Event.lockRelease]⟩
  | none =>
      match spawnRes with
      | none =>
          ⟨none, Except.error "Failed to start agent process",
            [Event.lockAcquire, Event.spawnEv, Event.lockRelease]⟩
      | some c =>
          ⟨some c, Except.ok "Agent started on port 8765",
            [Event.lockAcquire, Event.spawnEv, Event.lockRelease]⟩

/-- Embedding of `stop_agent` (lib.rs 86–94).  If the slot is occupied
the handle is taken and `kill_process_tree` runs while the guard is
still alive (the guard drops at function end). -/
def stop_agent (isWindows : Bool) (treeKillOk : Bool) (st : Option Child) : CmdOut :=
  match st with
  | some c =>
      ⟨none, Except.ok "Agent stopped",
        [Event.lockAcquire] ++ kill_process_tree isWindows treeKillOk c ++ [Event.lockRelease]⟩
  | none =>
      ⟨none, Except.ok "Agent not running", [Event.lockAcquire, Event.lockRelease]⟩

/-- Embedding of `restart_agent` (lib.rs 97–106).  Takes and kills the
held handle if any, then unconditionally attempts a spawn; on spawn
failure the `?` operator returns the error with the slot left empty
(it was cleared by `take()`).  Kill and spawn both run under the
guard. -/
def restart_agent (isWindows : Bool) (treeKillOk : Bool) (spawnRes : Option Child)
    (st : Option Child) : CmdOut :=
  let killTr : List Event :=
    match st with
    | some c => kill_process_tree isWindows treeKillOk c
    | none => []
  match spawnRes with
  | none =>
      ⟨none, Except.error "Failed to restart agent",
        [Event.lockAcquire] ++ killTr ++ [Event.spawnEv, Event.lockRelease]⟩
  | some c =>
      ⟨some c, Except.ok "Agent restarted",
        [Event.lockAcquire] ++ killTr ++ [Event.spawnEv, Event.lockRelease]⟩

/-- Outcome of the TCP connect attempt in `check_health`. -/
inductive ConnOutcome where
  | connected : ConnOutcome
  | timedOut : ConnOutcome
  | refused : ConnOutcome
  | otherError : ConnOutcome
deriving DecidableEq, Repr

/-- Embedding of `check_health` (lib.rs 109–115): the boolean is
`connect_timeout(..).is_ok()`, true exactly on a successful connection,
false on timeout, refusal, or any other connect error. -/
def check_health (conn : ConnOutcome) : Bool :=
  match conn with
  | ConnOutcome.connected => true
  | _ => false

/-- The serialized `AgentStatus` record (lib.rs 54–59). -/
structure AgentStatus where
  running : Bool
  ready : Bool
  pid : Option Nat
deriving DecidableEq, Repr

/-- Embedding of `agent_status` (lib.rs 62–70).  Returns the status and
the (unchanged) slot. -/
def agent_status (conn : ConnOutcome) (st : Option Child) : AgentStatus × Option Child :=
  let running := st.isSome
  let pid := st.map Child.pid
  let ready := running && check_health conn
  (⟨running, ready, pid⟩, st)

/-- One iteration of the watchdog loop body in `start_watchdog`
(lib.rs 288–310): take the lock, ask the held handle (if any) whether it
has exited via `try_wait`; if it has, clear the slot, drop the guard,
spawn; on spawn success re-take the lock and store the handle.  If the
slot is empty or the child is still running, nothing happens. -/
def watchdog_cycle (spawnRes : Option Child) (st : Option Child) :
    Option Child × List Event :=
  match st with
  | none => (none, [Event.lockAcquire, Event.lockRelease])
  | some c =>
      if c.hasExited then
        match spawnRes with
        | some c2 =>
            (some c2,
              [Event.lockAcquire, Event.lockRelease, Event.spawnEv,
               Event.lockAcquire, Event.lockRelease])
        | none =>
            (none, [Event.lockAcquire, Event.lockRelease, Event.spawnEv])
      else (some c, [Event.lockAcquire, Event.lockRelease])

/-- C1: `restart_agent` first terminates the existing process tree when
a handle is held, then unconditionally attempts a spawn; on spawn
success the new handle is stored and a success message returned; on
spawn failure an error string is returned with the slot left empty, so
a subsequent `start_agent` attempts a spawn rather than reporting
"already running". -/
theorem restart_terminates_then_spawns (w ok : Bool) (sp st : Option Child) :
    (∀ c, st = some c →
      (restart_agent w ok sp st).trace =
        [Event.lockAcquire] ++ kill_process_tree w ok c ++ [Event.spawnEv, Event.lockRelease])
    ∧ (st = none →
        (restart_agent w ok sp st).trace = [Event.lockAcquire, Event.spawnEv, Event.lockRelease])
    ∧ Event.spawnEv ∈ (restart_agent w ok sp st).trace
    ∧ (∀ c2, sp = some c2 →
        (restart_agent w ok sp st).state = some c2
        ∧ (restart_agent w ok sp st).result = Except.ok "Agent restarted")
    ∧ (sp = none →
        (restart_agent w ok sp st).state = none
        ∧ (restart_agent w ok sp st).result = Except.error "Failed to restart agent"
        ∧ ∀ sp2, Event.spawnEv ∈ (start_agent sp2 (restart_agent w ok sp st).state).trace) := by
  refine ⟨?_, ?_, ?_, ?_, ?_⟩
  · rintro c rfl; cases sp <;> simp [restart_agent]
  · rintro rfl; cases sp <;> simp [restart_agent]
  · cases st <;> cases sp <;> simp [restart_agent, kill_process_tree]
  · rintro c2 rfl; cases st <;> simp [restart_agent]
  · rintro rfl
    refine ⟨?_, ?_, ?_⟩
    · cases st <;> simp [restart_agent]
    · cases st <;> simp [restart_agent]
    · intro sp2
      have hst : (restart_agent w ok none st).state = none := by
        cases st <;> simp [restart_agent]
      rw [hst]
      cases sp2 <;> simp [start_agent]

/-- C1 witness: a concrete restart with a held handle and a failing
spawn kills the old tree, reports the error, leaves the slot empty, and
a retry through `start_agent` attempts a spawn. -/
theorem restart_terminates_then_spawns_witness :
    (restart_agent false true none (some ⟨7, false⟩)).trace =
      [Event.lockAcquire] ++ kill_process_tree false true ⟨7, false⟩
        ++ [Event.spawnEv, Event.lockRelease]
    ∧ (restart_agent false true none (some ⟨7, false⟩)).state = none
    ∧ (restart_agent false true none (some ⟨7, false⟩)).result =
        Except.error "Failed to restart agent" := by
  have h := restart_terminates_then_spawns false true none (some ⟨7, false⟩)
  exact ⟨h.1 ⟨7, false⟩ rfl, (h.2.2.2.2 rfl).1, (h.2.2.2.2 rfl).2.1⟩

/-- C2: `stop_agent` with a held handle takes it, terminates the tree,
and reports success; with an empty slot it reports "not running"; in
every state the returned `Result` is `Ok`, never an error. -/
theorem stop_idempotent_never_errors (w ok : Bool) (st : Option Child) :
    (∀ c, st = some c →
      stop_agent w ok st =
        ⟨none, Except.ok "Agent stopped",
          [Event.lockAcquire] ++ kill_process_tree w ok c ++ [Event.lockRelease]⟩)
    ∧ (st = none →
        stop_agent w ok st =
          ⟨none, Except.ok "Agent not running", [Event.lockAcquire, Event.lockRelease]⟩)
    ∧ (stop_agent w ok st).state = none
    ∧ ∃ m, (stop_agent w ok st).result = Except.ok m := by
  cases st <;> simp [stop_agent]

/-- C2 witness: stopping with an empty slot returns the non-error
"not running" message and keeps the slot empty. -/
theorem stop_idempotent_never_errors_witness :
    stop_agent true true none =
      ⟨none, Except.ok "Agent not running", [Event.lockAcquire, Event.lockRelease]⟩
    ∧ (stop_agent true true none).state = none := by
  have h := stop_idempotent_never_errors true true none
  exact ⟨h.2.1 rfl, h.2.2.1⟩

/-- C3: when the slot is occupied, `start_agent` returns the
"already running" message and changes nothing: the stored handle and
its pid are unchanged and no spawn is attempted. -/
theorem start_when_running_is_noop (sp : Option Child) (c : Child) :
    start_agent sp (some c) =
      ⟨some c, Except.ok "Agent already running", [Event.lockAcquire, Event.lockRelease]⟩
    ∧ (start_agent sp (some c)).state = some c
    ∧ (start_agent sp (some c)).state.map Child.pid = some c.pid
    ∧ Event.spawnEv ∉ (start_agent sp (some c)).trace := by
  simp [start_agent]

/-- C3 witness: a concrete occupied slot is untouched by `start_agent`
and its trace holds no spawn. -/
theorem start_when_running_is_noop_witness :
    (start_agent none (some ⟨4, false⟩)).state = some ⟨4, false⟩
    ∧ Event.spawnEv ∉ (start_agent none (some ⟨4, false⟩)).trace := by
  have h := start_when_running_is_noop none ⟨4, false⟩
  exact ⟨h.2.1, h.2.2.2⟩

/-- C4: `agent_status` reports `running` and `pid` from the slot,
`ready = running && check_health`, mutates nothing, and any probe
failure yields `ready = false` rather than an error. -/
theorem status_reflects_slot_and_probe (conn : ConnOutcome) (st : Option Child) :
    (agent_status conn st).2 = st
    ∧ (agent_status conn st).1.running = st.isSome
    ∧ (agent_status conn st).1.pid = st.map Child.pid
    ∧ (agent_status conn st).1.ready = (st.isSome && check_health conn)
    ∧ (conn ≠ ConnOutcome.connected → (agent_status conn st).1.ready = false)
    ∧ ((agent_status conn st).1.ready = true ↔
        st.isSome = true ∧ conn = ConnOutcome.connected) := by
  refine ⟨rfl, rfl, rfl, rfl, ?_, ?_⟩ <;> cases conn <;> cases st <;> simp [agent_status, check_health]

/-- C4 witness: with a held handle of pid 9 and a refused connection,
the status is running, not ready, pid 9, and the slot is untouched. -/
theorem status_reflects_slot_and_probe_witness :
    (agent_status ConnOutcome.refused (some ⟨9, false⟩)).2 = some ⟨9, false⟩
    ∧ (agent_status ConnOutcome.refused (some ⟨9, false⟩)).1.ready = false := by
  have h := status_reflects_slot_and_probe ConnOutcome.refused (some ⟨9, false⟩)
  exact ⟨h.1, h.2.2.2.2.1 (by decide)⟩

/-- C6: `kill_process_tree` always follows the platform tree-kill step
(taskkill on Windows, SIGTERM to the process group on POSIX) with a
direct kill and a blocking wait on the handle; the result does not
depend on whether the tree-kill step succeeded, nor on whether the
child has already exited (a no-op, not an error). -/
theorem kill_tree_always_direct_kill_and_wait (w ok : Bool) (p : Nat) (e : Bool) :
    kill_process_tree w ok ⟨p, e⟩ =
      (if w then [Event.taskkillEv p] else [Event.sigtermGroupEv p])
        ++ [Event.directKillEv p, Event.waitEv p]
    ∧ kill_process_tree w ok ⟨p, e⟩ = kill_process_tree w true ⟨p, e⟩
    ∧ kill_process_tree w ok ⟨p, e⟩ = kill_process_tree w ok ⟨p, true⟩ := by
  exact ⟨rfl, rfl, rfl⟩

/-- C8: a watchdog cycle with an empty slot changes nothing and spawns
nothing; with a still-running child it changes nothing and spawns
nothing; only with an exited child does it clear the slot, attempt one
respawn, and store the result (empty on spawn failure). -/
theorem watchdog_never_resurrects (sp st : Option Child) :
    (st = none →
      watchdog_cycle sp st = (none, [Event.lockAcquire, Event.lockRelease]))
    ∧ (∀ c, st = some c → c.hasExited = false →
        watchdog_cycle sp st = (some c, [Event.lockAcquire, Event.lockRelease]))
    ∧ (st = none ∨ (∃ c, st = some c ∧ c.hasExited = false) →
        Event.spawnEv ∉ (watchdog_cycle sp st).2)
    ∧ (∀ c, st = some c → c.hasExited = true →
        (watchdog_cycle sp st).1 = sp ∧ Event.spawnEv ∈ (watchdog_cycle sp st).2) := by
  refine ⟨?_, ?_, ?_, ?_⟩
  · rintro rfl; rfl
  · rintro c rfl hc; simp [watchdog_cycle, hc]
  · rintro (rfl | ⟨c, rfl, hc⟩) <;> simp [watchdog_cycle] <;> simp [hc]
  · rintro c rfl hc; cases sp <;> simp [watchdog_cycle, hc]

/-- C8 witness: an exited child with a failing respawn leaves the slot
empty; an empty slot is left untouched with no spawn attempt. -/
theorem watchdog_never_resurrects_witness :
    watchdog_cycle (some ⟨2, false⟩) none = (none, [Event.lockAcquire, Event.lockRelease])
    ∧ (watchdog_cycle none (some ⟨1, true⟩)).1 = none
    ∧ Event.spawnEv ∈ (watchdog_cycle none (some ⟨1, true⟩)).2 := by
  have h1 := watchdog_never_resurrects (some ⟨2, false⟩) none
  have h2 := watchdog_never_resurrects none (some ⟨1, true⟩)
  exact ⟨h1.1 rfl, (h2.2.2.2 ⟨1, true⟩ rfl rfl).1, (h2.2.2.2 ⟨1, true⟩ rfl rfl).2⟩

/-- A supervisor operation together with the spawn outcome the OS would
give it (the oracle for the one `spawn_agent` call it may make). -/
inductive Op where
  | startOp : Option Child → Op
  | stopOp : Op
  | restartOp : Option Child → Op
  | watchdogOp : Option Child → Op
deriving DecidableEq, Repr

/-- State transition of one operation on the `agent_process` slot. -/
def applyOp (w ok : Bool) : Op → Option Child → Option Child
  | Op.startOp sp, st => (start_agent sp st).state
  | Op.stopOp, st => (stop_agent w ok st).state
  | Op.restartOp sp, st => (restart_agent w ok sp st).state
  | Op.watchdogOp sp, st => (watchdog_cycle sp st).1

/-- Run a sequence of operations from an initial slot. -/
def runOps (w ok : Bool) : List Op → Option Child → Option Child
  | [], st => st
  | op :: ops, st => runOps w ok ops (applyOp w ok op st)

/-- The handle an operation takes out of the slot and hands to
`kill_process_tree` (ownership transfer by `proc.take()` followed by a
kill): `stop_agent` and `restart_agent` on an occupied slot. -/
def takenForTermination : Op → Option Child → Option Child
  | Op.stopOp, some c => some c
  | Op.restartOp _, some c => some c
  | _, _ => none

/-- The spawn oracle of an operation. -/
def opSpawn : Op → Option Child
  | Op.startOp sp => sp
  | Op.stopOp => none
  | Op.restartOp sp => sp
  | Op.watchdogOp sp => sp

/-- C5: after any sequence of start, stop, restart, and watchdog
cycles the slot holds at most one handle, and a handle taken for
termination is never stored back by the operation that took it: the
post-state is empty or holds the (necessarily different) handle the OS
returned from the fresh spawn. -/
theorem at_most_one_handle_no_reuse (w ok : Bool) :
    (∀ (ops : List Op) (st0 : Option Child), (runOps w ok ops st0).toList.length ≤ 1)
    ∧ (∀ (op : Op) (st : Option Child) (c : Child),
        takenForTermination op st = some c → opSpawn op ≠ some c →
        applyOp w ok op st ≠ some c) := by
  constructor
  · intro ops st0
    cases h : runOps w ok ops st0 <;> simp [h]
  · intro op st c htaken hfresh
    cases op with
    | startOp sp => simp [takenForTermination] at htaken
    | stopOp =>
        cases st <;> simp [applyOp, stop_agent]
    | restartOp sp =>
        have hstate : (restart_agent w ok sp st).state = sp := by
          cases sp <;> rfl
        have hsp : opSpawn (Op.restartOp sp) = sp := rfl
        rw [hsp] at hfresh
        simpa [applyOp, hstate] using hfresh
    | watchdogOp sp => simp [takenForTermination] at htaken

/-- C5 witness: stopping a concrete held handle takes it for
termination and the post-state does not hold it. -/
theorem at_most_one_handle_no_reuse_witness :
    takenForTermination Op.stopOp (some ⟨3, false⟩) = some ⟨3, false⟩
    ∧ opSpawn Op.stopOp ≠ some ⟨3, false⟩
    ∧ applyOp true true Op.stopOp (some ⟨3, false⟩) ≠ some ⟨3, false⟩
    ∧ (runOps true true [Op.stopOp] (some ⟨3, false⟩)).toList.length ≤ 1 := by
  refine ⟨by decide, by decide, ?_, ?_⟩
  · exact (at_most_one_handle_no_reuse true true).2 Op.stopOp (some ⟨3, false⟩) ⟨3, false⟩
      (by decide) (by decide)
  · exact (at_most_one_handle_no_reuse true true).1 [Op.stopOp] (some ⟨3, false⟩)

/-- Events that are process side effects (spawn, tree kill, direct
kill, blocking wait), as opposed to lock transitions and the probe. -/
def isProcEffect : Event → Bool
  | Event.spawnEv => true
  | Event.taskkillEv _ => true
  | Event.sigtermGroupEv _ => true
  | Event.directKillEv _ => true
  | Event.waitEv _ => true
  | _ => false

/-- True when some process side effect occurs in the trace while the
lock depth is positive (the mutex is held). -/
def effectUnderLockAux : Nat → List Event → Bool
  | _, [] => false
  | d, Event.lockAcquire :: r => effectUnderLockAux (d + 1) r
  | d, Event.lockRelease :: r => effectUnderLockAux (d - 1) r
  | d, e :: r => (isProcEffect e && decide (0 < d)) || effectUnderLockAux d r

def effectUnderLock (tr : List Event) : Bool :=
  effectUnderLockAux 0 tr

/-- True when a spawn occurs in the trace while the lock is held. -/
def spawnUnderLockAux : Nat → List Event → Bool
  | _, [] => false
  | d, Event.lockAcquire :: r => spawnUnderLockAux (d + 1) r
  | d, Event.lockRelease :: r => spawnUnderLockAux (d - 1) r
  | d, Event.spawnEv :: r => decide (0 < d) || spawnUnderLockAux d r
  | d, _ :: r => spawnUnderLockAux d r

def spawnUnderLock (tr : List Event) : Bool :=
  spawnUnderLockAux 0 tr

/-- C9 counterexample: `stop_agent` on an occupied slot performs the
tree termination and the blocking wait while the mutex guard is still
alive, so the claim that stop and restart release the lock before
terminating or spawning is false on the code. -/
theorem stop_holds_lock_across_kill_cex :
    effectUnderLock (stop_agent false true (some ⟨5, false⟩)).trace = true
    ∧ effectUnderLock (restart_agent false true (some ⟨6, false⟩) (some ⟨5, false⟩)).trace = true := by
  decide

/-- C9 amended: only the watchdog releases the lock before respawning;
`stop_agent` and `restart_agent` perform termination (and restart the
spawn) while holding the lock, and `start_agent` also spawns under the
lock. -/
theorem lock_discipline_amended (w ok : Bool) (sp st : Option Child) :
    spawnUnderLock (watchdog_cycle sp st).2 = false
    ∧ (∀ c, st = some c → effectUnderLock (stop_agent w ok st).trace = true)
    ∧ spawnUnderLock (restart_agent w ok sp st).trace = true
    ∧ spawnUnderLock (start_agent sp none).trace = true := by
  refine ⟨?_, ?_, ?_, ?_⟩
  · cases st with
    | none => rfl
    | some c =>
        cases hc : c.hasExited <;> cases sp <;>
          simp [watchdog_cycle, hc, spawnUnderLock, spawnUnderLockAux]
  · rintro c rfl
    cases w <;>
      simp [stop_agent, kill_process_tree, effectUnderLock, effectUnderLockAux, isProcEffect]
  · cases st <;> cases sp <;> cases w <;>
      simp [restart_agent, kill_process_tree, spawnUnderLock, spawnUnderLockAux]
  · cases sp <;> simp [start_agent, spawnUnderLock, spawnUnderLockAux]

/-- C9 amended witness: a concrete watchdog respawn happens outside the
lock while a concrete stop kills under the lock. -/
theorem lock_discipline_amended_witness :
    spawnUnderLock (watchdog_cycle (some ⟨2, false⟩) (some ⟨1, true⟩)).2 = false
    ∧ effectUnderLock (stop_agent true true (some ⟨1, false⟩)).trace = true := by
  have h := lock_discipline_amended true true (some ⟨2, false⟩) (some ⟨1, true⟩)
  have h2 := lock_discipline_amended true true (some ⟨2, false⟩) (some ⟨1, false⟩)
  exact ⟨h.1, h2.2.1 ⟨1, false⟩ rfl⟩

/-- A filesystem path as a list of components, joined left to right. -/
abbrev FsPath := List String

/-- `PathBuf::join` with a single component. -/
def pathJoin (p : FsPath) (s : String) : FsPath := p ++ [s]

/-- `str::trim_matches('/')`: strip leading and trailing slashes. -/
def trimSlashes (s : String) : String :=
  String.mk (((s.data.dropWhile fun ch => ch = '/').reverse.dropWhile fun ch => ch = '/').reverse)

/-- Environment for the packaged-mode resolvers: the Tauri bundled
resource directory (`app.path().resource_dir()`, `none` on error), the
executable directory (`current_exe` parent, `none` on error), and the
filesystem existence oracle (`Path::exists`). -/
structure ResolveEnv where
  resourceDir : Option FsPath
  exeDir : Option FsPath
  fsExists : FsPath → Bool

/-- Embedding of `candidate_resource_roots` (lib.rs 174–187): the
bundled resource dir when available, then `<exe-dir>/resources`, then
`<exe-dir>` itself. -/
def candidate_resource_roots (env : ResolveEnv) : List FsPath :=
  env.resourceDir.toList ++
    (match env.exeDir with
     | some d => [pathJoin d "resources", d]
     | none => [])

/-- Embedding of `resolve_bundled_resource` (lib.rs 189–205): for each
root in order, check `<root>/<name>` then `<root>/resources/<name>`,
returning the first that exists. -/
def resolve_bundled_resource (env : ResolveEnv) (name : String) : Option FsPath :=
  (candidate_resource_roots env).findSome? fun root =>
    if env.fsExists (pathJoin root (trimSlashes name)) then
      some (pathJoin root (trimSlashes name))
    else
      if env.fsExists (pathJoin (pathJoin root "resources") (trimSlashes name)) then
        some (pathJoin (pathJoin root "resources") (trimSlashes name))
      else none

/-- The flattened candidate list the spec describes: for each root in
order, `<root>/<name>` then `<root>/resources/<name>`.  Stated from the
spec wording, to be compared with `resolve_bundled_resource`. -/
def orderedCandidates (env : ResolveEnv) (clean : String) : List FsPath :=
  (candidate_resource_roots env).flatMap fun root =>
    [pathJoin root clean, pathJoin (pathJoin root "resources") clean]

/-- The `python_embed` base directory of `resolve_python`
(lib.rs 133–134): the resolved bundled resource, else the bundled
resource dir default (`unwrap_or_default` yields the empty path when
`resource_dir` errs). -/
def pythonBase (env : ResolveEnv) : FsPath :=
  (resolve_bundled_resource env "python_embed").getD
    (pathJoin (env.resourceDir.getD []) "python_embed")

/-- The OS-specific executable candidates of `resolve_python`
(lib.rs 136–153). -/
def pythonCandidates (isWindows : Bool) (base : FsPath) : List FsPath :=
  if isWindows then
    [pathJoin base "python.exe", pathJoin base "python3.exe",
     pathJoin base "python", pathJoin base "python3"]
  else
    [pathJoin (pathJoin base "bin") "python3", pathJoin (pathJoin base "bin") "python",
     pathJoin base "python3", pathJoin base "python",
     pathJoin (pathJoin base "bin") "python3.10", pathJoin (pathJoin base "bin") "python3.11",
     pathJoin (pathJoin base "bin") "python3.12"]

/-- The fixed fallback of `resolve_python` (lib.rs 158–164). -/
def pythonDefault (isWindows : Bool) (base : FsPath) : FsPath :=
  if isWindows then pathJoin base "python.exe"
  else pathJoin (pathJoin base "bin") "python3"

/-- Embedding of `resolve_python` (lib.rs 129–166): development mode
uses the system interpreter name; packaged mode takes the first
existing candidate under the resolved base, else the fixed default. -/
def resolve_python (isWindows debugMode : Bool) (env : ResolveEnv) : FsPath :=
  if debugMode then [if isWindows then "python" else "python3"]
  else
    ((pythonCandidates isWindows (pythonBase env)).find? env.fsExists).getD
      (pythonDefault isWindows (pythonBase env))

/-- The per-root two-step lookup equals a first-match search over the
flattened candidate list. -/
theorem findSome_two_per_root (f : FsPath → Bool) (clean : String) (roots : List FsPath) :
    (roots.findSome? fun root =>
      if f (pathJoin root clean) then some (pathJoin root clean)
      else
        if f (pathJoin (pathJoin root "resources") clean) then
          some (pathJoin (pathJoin root "resources") clean)
        else none) =
    (roots.flatMap fun root =>
      [pathJoin root clean, pathJoin (pathJoin root "resources") clean]).find? f := by
  induction roots with
  | nil => rfl
  | cons r rs ih =>
      cases h1 : f (pathJoin r clean) <;>
        cases h2 : f (pathJoin (pathJoin r "resources") clean) <;>
          simp only [List.findSome?_cons, List.flatMap_cons, List.cons_append,
            List.nil_append, List.singleton_append, List.find?_cons, h1, h2, ih] <;>
            simp [ih]

/-- Environment refuting the "default under the first root" clause: the
bundled resource dir is `rd`, the exe dir is `xd`, and the only
existing path is `xd/resources/python_embed`, so the python base is
resolved under the second root and the fallback default lies under it,
not under the first root. -/
def cexEnv : ResolveEnv :=
  ⟨some ["rd"], some ["xd"], fun p => p == ["xd", "resources", "python_embed"]⟩

/-- C7 counterexample: with `cexEnv`, no python candidate exists, yet
the fallback `resolve_python` returns is not under the first root
`rd` (the claim would put it at `rd/python_embed/bin/python3`); it lies
under the resolved base `xd/resources/python_embed` instead. -/
theorem python_fallback_not_under_first_root_cex :
    ((pythonCandidates false (pythonBase cexEnv)).all fun c => !cexEnv.fsExists c) = true
    ∧ resolve_python false false cexEnv = ["xd", "resources", "python_embed", "bin", "python3"]
    ∧ resolve_python false false cexEnv ≠
        pathJoin (pathJoin (pathJoin ["rd"] "python_embed") "bin") "python3" := by
  refine ⟨by decide, by decide, by decide⟩

/-- C7 amended: `resolve_bundled_resource` returns the first existing
path among the ordered per-root candidates; the packaged executable is
the first existing OS-specific candidate under the resolved base, and
when none exists the fixed default under the resolved base is returned
instead of an error; the base lies under the first root whenever the
resource search itself found no match. -/
theorem bundled_resource_ordered_search (w : Bool) (env : ResolveEnv) (name : String) :
    resolve_bundled_resource env name =
      (orderedCandidates env (trimSlashes name)).find? env.fsExists
    ∧ (∀ p, (pythonCandidates w (pythonBase env)).find? env.fsExists = some p →
        resolve_python w false env = p)
    ∧ ((pythonCandidates w (pythonBase env)).find? env.fsExists = none →
        resolve_python w false env = pythonDefault w (pythonBase env))
    ∧ (resolve_bundled_resource env "python_embed" = none →
        pythonBase env = pathJoin (env.resourceDir.getD []) "python_embed") := by
  refine ⟨?_, ?_, ?_, ?_⟩
  · exact findSome_two_per_root env.fsExists (trimSlashes name) (candidate_resource_roots env)
  · intro p hp; simp [resolve_python, hp]
  · intro hp; simp [resolve_python, hp]
  · intro hnone; simp [pythonBase, hnone]

/-- C7 witness: a concrete environment where the resource search finds
nothing, so the base sits under the first root, and the windows
`python.exe` candidate exists and is returned. -/
theorem bundled_resource_ordered_search_witness :
    (pythonCandidates true (pythonBase ⟨some ["rd"], none,
        fun p => p == ["rd", "python_embed", "python.exe"]⟩)).find?
      (fun p => p == ["rd", "python_embed", "python.exe"]) =
        some ["rd", "python_embed", "python.exe"]
    ∧ resolve_python true false ⟨some ["rd"], none,
        fun p => p == ["rd", "python_embed", "python.exe"]⟩ =
        ["rd", "python_embed", "python.exe"]
    ∧ pythonBase ⟨some ["rd"], none, fun p => p == ["rd", "python_embed", "python.exe"]⟩ =
        pathJoin ["rd"] "python_embed" := by
  have h := bundled_resource_ordered_search true
    ⟨some ["rd"], none, fun p => p == ["rd", "python_embed", "python.exe"]⟩ "python_embed"
  refine ⟨by decide, h.2.1 ["rd", "python_embed", "python.exe"] (by decide), ?_⟩
  exact h.2.2.2 (by decide)

/-- A row of the `projects` table, with the ten columns read by
`Database::list_projects` (db.rs 26–48) plus the `updated_at` column
its `ORDER BY` sorts on.  `temperature` is REAL in SQLite; no
arithmetic is performed on it here, so it is modelled as a rational. -/
structure DbProject where
  id : String
  name : String
  genre : String
  description : Option String
  status : String
  model_main : String
  model_secondary : String
  temperature : Rat
  embedding_dim : Int
  word_target : Int
  updated_at : Nat
deriving DecidableEq, Repr

/-- Modelled from the spec: the column defaults of `projects` come from
`database/schema.sql`, which is not under `src/`; the spec only says
the id is generated and the remaining columns are defaulted, so the
defaults are kept abstract. -/
structure SchemaDefaults where
  description : Option String
  status : String
  model_main : String
  model_secondary : String
  temperature : Rat
  embedding_dim : Int
  word_target : Int

/-- Modelled from the spec: the statement
`INSERT INTO projects (name, genre) VALUES (?1, ?2) RETURNING id`
of `Database::create_project` (db.rs 52–56).  `database/schema.sql` is
not under `src/`, so the id generator is the oracle `genId` and the
other columns take the schema defaults; `updated_at` is stamped with
the current clock `now`; the insert fails (a rusqlite error, mapped
through `?`) when the generated id collides with an existing primary
key. -/
def sqlInsert (d : SchemaDefaults) (genId projName genre : String) (now : Nat)
    (tbl : List DbProject) : Option (String × List DbProject) :=
  if tbl.any fun r => r.id == genId then none
  else
    some (genId,
      ⟨genId, projName, genre, d.description, d.status, d.model_main, d.model_secondary,
        d.temperature, d.embedding_dim, d.word_target, now⟩ :: tbl)

/-- Embedding of `Database::list_projects` (db.rs 26–48): all rows
ordered by `updated_at DESC`. -/
def list_projects (tbl : List DbProject) : List DbProject :=
  tbl.mergeSort fun a b => decide (b.updated_at ≤ a.updated_at)

/-- Embedding of `Database::create_project` (db.rs 50–60): run the
insert, release the connection, call `list_projects`, and look up the
returned id.  The Rust `unwrap` panics exactly when the lookup fails,
so the looked-up row is kept as an `Option`. -/
def create_project (d : SchemaDefaults) (genId projName genre : String) (now : Nat)
    (tbl : List DbProject) : Option (Option DbProject × List DbProject) :=
  match sqlInsert d genId projName genre now tbl with
  | none => none
  | some (id, tbl2) =>
      some ((list_projects tbl2).find? fun p => p.id == id, tbl2)

/-- C10: whenever the insert succeeds, the subsequent `list_projects`
result contains a row with the generated id, so the lookup succeeds
(the `unwrap` cannot panic) and the record `create_project` returns
carries exactly that id. -/
theorem create_project_unwrap_safe (d : SchemaDefaults) (genId projName genre : String)
    (now : Nat) (tbl : List DbProject) (id : String) (tbl2 : List DbProject)
    (hins : sqlInsert d genId projName genre now tbl = some (id, tbl2)) :
    id = genId
    ∧ (∃ r ∈ list_projects tbl2, r.id = genId)
    ∧ ∃ p, create_project d genId projName genre now tbl = some (some p, tbl2)
        ∧ p.id = genId := by
  have hins2 := hins
  have hfresh : (tbl.any fun r => r.id == genId) = false := by
    by_contra hcontra
    rw [Bool.not_eq_false] at hcontra
    simp [sqlInsert, hcontra] at hins
  rw [sqlInsert, hfresh] at hins
  simp only [Bool.false_eq_true, if_false, Option.some.injEq, Prod.mk.injEq] at hins
  obtain ⟨hid, htbl2⟩ := hins
  have hmem : (⟨genId, projName, genre, d.description, d.status, d.model_main,
      d.model_secondary, d.temperature, d.embedding_dim, d.word_target, now⟩ : DbProject)
      ∈ list_projects tbl2 := by
    rw [← htbl2]
    exact (List.mergeSort_perm _ _).mem_iff.mpr (List.mem_cons_self _ _)
  have hex : ∃ r ∈ list_projects tbl2, r.id = genId := ⟨_, hmem, rfl⟩
  have hsome : ((list_projects tbl2).find? fun p => p.id == id).isSome = true := by
    rw [List.find?_isSome]
    exact ⟨_, hmem, by simp [hid]⟩
  obtain ⟨p, hp⟩ := Option.isSome_iff_exists.mp hsome
  have hcp : create_project d genId projName genre now tbl
      = some ((list_projects tbl2).find? fun q => q.id == id, tbl2) := by
    unfold create_project
    rw [hins2]
  refine ⟨hid.symm, hex, p, ?_, ?_⟩
  · rw [hcp, hp]
  · have hpid := List.find?_some hp
    simpa [hid] using hpid

/-- C10 witness: a concrete insert into a table holding one older row
succeeds, and `create_project` returns the new row with the generated
id. -/
theorem create_project_unwrap_safe_witness :
    sqlInsert ⟨none, "draft", "m1", "m2", 1, 1024, 100000⟩ "id2" "Novel A" "Fantasy" 5
        [⟨"id1", "Old", "SciFi", none, "draft", "m1", "m2", 1, 1024, 100000, 1⟩] =
      some ("id2",
        [⟨"id2", "Novel A", "Fantasy", none, "draft", "m1", "m2", 1, 1024, 100000, 5⟩,
         ⟨"id1", "Old", "SciFi", none, "draft", "m1", "m2", 1, 1024, 100000, 1⟩])
    ∧ ∃ p, create_project ⟨none, "draft", "m1", "m2", 1, 1024, 100000⟩ "id2" "Novel A"
          "Fantasy" 5 [⟨"id1", "Old", "SciFi", none, "draft", "m1", "m2", 1, 1024, 100000, 1⟩] =
        some (some p,
          [⟨"id2", "Novel A", "Fantasy", none, "draft", "m1", "m2", 1, 1024, 100000, 5⟩,
           ⟨"id1", "Old", "SciFi", none, "draft", "m1", "m2", 1, 1024, 100000, 1⟩])
        ∧ p.id = "id2" := by
  refine ⟨by decide, ?_⟩
  exact (create_project_unwrap_safe ⟨none, "draft", "m1", "m2", 1, 1024, 100000⟩ "id2"
    "Novel A" "Fantasy" 5
    [⟨"id1", "Old", "SciFi", none, "draft", "m1", "m2", 1, 1024, 100000, 1⟩] "id2"
    [⟨"id2", "Novel A", "Fantasy", none, "draft", "m1", "m2", 1, 1024, 100000, 5⟩,
     ⟨"id1", "Old", "SciFi", none, "draft", "m1", "m2", 1, 1024, 100000, 1⟩]
    (by decide)).2.2

end ThreeFire
